import Mathlib

/-!
Shallow embedding of the decoration logic of QAdwaitaDecorations
(src/src/qadwaitadecorations.cpp, the Qt6 build with HAS_QT6_SUPPORT).

Coordinates, sizes and times are modelled as `Int` (event coordinates in the
claims are integral; C++ `int` arithmetic, including truncating division, is
mirrored with `Int.div`).  `QDateTime` is modelled as an `Int` count of
milliseconds, so `a.msecsTo(b) = b - a`.
-/

namespace QAdwaita

/-- A point (models `QPointF`, restricted to integral coordinates). -/
structure Point where
  x : Int
  y : Int
  deriving DecidableEq, Repr

/-- A floating-point rectangle given by top-left corner and size
(models `QRectF`). -/
structure RectF where
  x : Int
  y : Int
  w : Int
  h : Int
  deriving DecidableEq, Repr

/-- `QRectF::contains(QPointF)`: the closed rectangle, empty rectangles
contain nothing.  (Qt normalises a negative width/height by swapping the
corners; every rectangle built by this code has positive size, for which the
two definitions agree.) -/
def RectF.containsPt (r : RectF) (p : Point) : Prop :=
  0 < r.w ∧ 0 < r.h ∧ r.x ≤ p.x ∧ p.x ≤ r.x + r.w ∧ r.y ≤ p.y ∧ p.y ≤ r.y + r.h

instance (r : RectF) (p : Point) : Decidable (r.containsPt p) := by
  unfold RectF.containsPt; infer_instance

/-- An integer rectangle (models `QRect`). -/
structure Rect where
  x : Int
  y : Int
  w : Int
  h : Int
  deriving DecidableEq, Repr

/-- `QRect::top()`. -/
def Rect.top (r : Rect) : Int := r.y

/-- `QRect::left()`. -/
def Rect.left (r : Rect) : Int := r.x

/-- `QRect::right()` (`x + w - 1`, Qt's historical off-by-one). -/
def Rect.right (r : Rect) : Int := r.x + r.w - 1

/-- `QRect::bottom()` (`y + h - 1`). -/
def Rect.bottom (r : Rect) : Int := r.y + r.h - 1

/-- Margins, in `QMargins` constructor order `(left, top, right, bottom)`. -/
structure Margins where
  left : Int
  top : Int
  right : Int
  bottom : Int
  deriving DecidableEq, Repr

/-- `QRect operator+(QRect, QMargins)`: grow the rectangle outward. -/
def growRect (r : Rect) (m : Margins) : Rect :=
  ⟨r.x - m.left, r.y - m.top, r.w + m.left + m.right, r.h + m.top + m.bottom⟩

/-- `QWaylandAbstractDecoration::MarginsType`. -/
inductive MarginsType where
  | Full
  | ShadowsOnly
  | ShadowsExcluded
  deriving DecidableEq, Repr

/-- The four window-tiling flags
(`QWaylandWindow::ToplevelWindowTilingStates`). -/
structure Tiling where
  left : Bool
  top : Bool
  right : Bool
  bottom : Bool
  deriving DecidableEq, Repr

/-- No tiled edge. -/
def noTiling : Tiling := ⟨false, false, false, false⟩

/-- `QAdwaitaDecorations::Button` (including the `None` member). -/
inductive Button where
  | None
  | Close
  | Minimize
  | Maximize
  deriving DecidableEq, Repr

/-- `QAdwaitaDecorations::Placement`. -/
inductive Placement where
  | Left
  | Right
  deriving DecidableEq, Repr

/-- The `Qt::MouseButtons` flag set, restricted to the flags this code
inspects: the left button, the right button, and a summary bit for any other
button (needed because `b == Qt::RightButton` is an exact flag-set
comparison). -/
structure MouseBtns where
  left : Bool
  right : Bool
  others : Bool
  deriving DecidableEq, Repr

/-- No mouse button held. -/
def noBtns : MouseBtns := ⟨false, false, false⟩

/-- Only the left button held. -/
def leftBtn : MouseBtns := ⟨true, false, false⟩

/-- `b == Qt::MouseButton::RightButton`: exactly the right button. -/
def isRightOnly (b : MouseBtns) : Prop :=
  b.left = false ∧ b.right = true ∧ b.others = false

instance (b : MouseBtns) : Decidable (isRightOnly b) := by
  unfold isRightOnly; infer_instance

/-- The window-management requests the decoration can issue to the host
(cursor hints and repaint requests are tracked separately or not at all —
the claims only quantify over these action requests). -/
inductive Act where
  | move
  | resizeTopLeft
  | resizeTopRight
  | resizeTop
  | resizeBottomLeft
  | resizeBottomRight
  | resizeBottom
  | resizeLeft
  | resizeRight
  | close
  | toggleMaximize
  | minimize
  | showMenu
  deriving DecidableEq, Repr

-- Constants from the top of qadwaitadecorations.cpp.

/-- `ceButtonSpacing`. -/
def ceButtonSpacing : Int := 12

/-- `ceButtonWidth`. -/
def ceButtonWidth : Int := 24

/-- `ceShadowsWidth`. -/
def ceShadowsWidth : Int := 10

/-- `ceTitlebarHeight`. -/
def ceTitlebarHeight : Int := 38

/-- `ceWindowBorderWidth`. -/
def ceWindowBorderWidth : Int := 1

/-- `QAdwaitaDecorations::margins(MarginsType)` (the `HAS_QT6_SUPPORT`
version), as a function of the window-state snapshot it reads from the
host (`windowStates() & Qt::WindowMaximized` and
`toplevelWindowTilingStates()`). -/
def margins (maximized : Bool) (tiling : Tiling) (marginsType : MarginsType) : Margins :=
  if maximized then
    ⟨0, if marginsType = MarginsType.ShadowsOnly then 0 else ceTitlebarHeight, 0, 0⟩
  else
    let marginsBase :=
      if marginsType = MarginsType.ShadowsExcluded then ceWindowBorderWidth
      else ceShadowsWidth + ceWindowBorderWidth
    let sideMargins :=
      if marginsType = MarginsType.ShadowsOnly then ceShadowsWidth else marginsBase
    let topMargins :=
      if marginsType = MarginsType.ShadowsOnly then ceShadowsWidth
      else ceTitlebarHeight + marginsBase
    ⟨if tiling.left then 0 else sideMargins,
     if tiling.top then
       (if marginsType = MarginsType.ShadowsOnly then 0 else ceTitlebarHeight)
     else topMargins,
     if tiling.right then 0 else sideMargins,
     if tiling.bottom then 0 else sideMargins⟩

/-- The host-supplied, per-event window snapshot: the state flags the
decoration reads back from `waylandWindow()` / `window()`. -/
structure HostEnv where
  maximized : Bool
  tiling : Tiling
  /-- `waylandWindow()->windowContentGeometry()`: the xdg-shell window
  geometry inside the surface (excludes the shadow margin). -/
  hostContentGeometry : Rect
  /-- `window()->width()` (used only by `processMouseBottom`). -/
  windowWidth : Int
  deriving DecidableEq, Repr

/-- `margins` read through the environment. -/
def marginsE (env : HostEnv) (marginsType : MarginsType) : Margins :=
  margins env.maximized env.tiling marginsType

/-- `QAdwaitaDecorations::windowContentGeometry()` (Qt6 path):
the host content geometry grown by the shadows-only margins, i.e. the full
decorated surface rectangle. -/
def windowContentGeometry (env : HostEnv) : Rect :=
  growRect env.hostContentGeometry (marginsE env MarginsType.ShadowsOnly)

/-- `m_buttons : QMap<Button, int>` — the titlebar button order, keyed by
button kind.  `QMap::value` defaults to `0` for an absent key. -/
structure ButtonMap where
  close : Option Int
  minimize : Option Int
  maximize : Option Int
  deriving DecidableEq, Repr

/-- `m_buttons.value(button)` (`0` when absent; `Button::None` is never a
key). -/
def ButtonMap.value (m : ButtonMap) : Button → Int
  | Button.Close => m.close.getD 0
  | Button.Minimize => m.minimize.getD 0
  | Button.Maximize => m.maximize.getD 0
  | Button.None => 0

/-- `m_buttons.contains(button)`. -/
def ButtonMap.mem (m : ButtonMap) : Button → Prop
  | Button.Close => m.close.isSome = true
  | Button.Minimize => m.minimize.isSome = true
  | Button.Maximize => m.maximize.isSome = true
  | Button.None => False

instance (m : ButtonMap) (b : Button) : Decidable (m.mem b) := by
  cases b <;> unfold ButtonMap.mem <;> infer_instance

/-- The default GNOME configuration from the class initialisers:
close button only, anchored right. -/
def defaultButtons : ButtonMap := ⟨some 1, none, none⟩

/-- The mutable decoration state (the fields of `QAdwaitaDecorations`
touched by the interaction logic, plus the `m_mouseButtons` state inherited
from `QWaylandAbstractDecoration`). -/
structure DecorState where
  placement : Placement
  buttons : ButtonMap
  clicking : Button
  hoveredClose : Bool
  hoveredMaximize : Bool
  hoveredMinimize : Bool
  lastButtonClick : Int
  lastButtonClickPosition : Point
  /-- `QWaylandAbstractDecorationPrivate::m_mouseButtons`, the previous
  event's button state, updated by `setMouseButtons` at the end of
  `handleMouse`. -/
  mouseButtons : MouseBtns
  deriving DecidableEq, Repr

/-- The state right after construction (defaults from the class declaration;
`m_lastButtonClick` is the construction time, a parameter here). -/
def initState (constructionTime : Int) : DecorState :=
  ⟨Placement.Right, defaultButtons, Button.None, false, false, false,
   constructionTime, ⟨0, 0⟩, noBtns⟩

/-- `QAdwaitaDecorations::buttonRect(Button)` (Qt6 path).  `xPos`/`yPos` are
C++ `int`s, so the halving uses truncating division. -/
def buttonRect (env : HostEnv) (s : DecorState) (button : Button) : RectF :=
  let btnPos := s.buttons.value button
  let xPos :=
    if s.placement = Placement.Right then
      (windowContentGeometry env).w - ceButtonWidth * btnPos - ceButtonSpacing * btnPos
        - (marginsE env MarginsType.ShadowsOnly).right
    else
      ceButtonWidth * btnPos + ceButtonSpacing * btnPos
        + (marginsE env MarginsType.ShadowsOnly).left - ceButtonWidth
  let yPos :=
    Int.tdiv ((marginsE env MarginsType.Full).top + (marginsE env MarginsType.Full).bottom
      - ceButtonWidth) 2
  ⟨xPos, yPos, ceButtonWidth, ceButtonWidth⟩

/-- `QWaylandAbstractDecoration::isLeftClicked(b)`: the left button is in
the new state but was not in the stored previous state. -/
def isLeftClicked (prev b : MouseBtns) : Prop :=
  prev.left = false ∧ b.left = true

instance (prev b : MouseBtns) : Decidable (isLeftClicked prev b) := by
  unfold isLeftClicked; infer_instance

/-- `QWaylandAbstractDecoration::isLeftReleased(b)`: the left button was in
the stored previous state and is absent from the new state. -/
def isLeftReleased (prev b : MouseBtns) : Prop :=
  prev.left = true ∧ b.left = false

instance (prev b : MouseBtns) : Decidable (isLeftReleased prev b) := by
  unfold isLeftReleased; infer_instance

/-- `QWaylandAbstractDecoration::startResize`: issues the resize request to
the shell surface only when the event is a fresh left press. -/
def startResize (s : DecorState) (b : MouseBtns) (edge : Act) : List Act :=
  if isLeftClicked s.mouseButtons b then [edge] else []

/-- `QWaylandAbstractDecoration::startMove`: issues the move request only
when the event is a fresh left press. -/
def startMove (s : DecorState) (b : MouseBtns) : List Act :=
  if isLeftClicked s.mouseButtons b then [Act.move] else []

/-- `QAdwaitaDecorations::clickButton`: returns whether the armed button
fired, together with the new state.  (The scope-guarded `forceRepaint` has
no modelled effect.) -/
def clickButton (s : DecorState) (b : MouseBtns) (btn : Button) : Bool × DecorState :=
  if isLeftClicked s.mouseButtons b then
    (false, { s with clicking := btn })
  else if isLeftReleased s.mouseButtons b then
    if s.clicking = btn then
      (true, { s with clicking := Button.None })
    else
      (false, { s with clicking := Button.None })
  else
    (false, s)

/-- `QAdwaitaDecorations::doubleClickButton`: double-click classification
for the draggable titlebar strip.  `m_lastButtonClick` is overwritten with
the current time on every fresh left press; `m_lastButtonClickPosition`
is overwritten only when the press does not classify as a double-click. -/
def doubleClickButton (s : DecorState) (b : MouseBtns) (localPos : Point) (currentTime : Int) :
    Bool × DecorState :=
  if isLeftClicked s.mouseButtons b then
    let clickInterval := currentTime - s.lastButtonClick
    let s1 : DecorState := { s with lastButtonClick := currentTime }
    let posDiffX := s.lastButtonClickPosition.x - localPos.x
    let posDiffY := s.lastButtonClickPosition.y - localPos.y
    if clickInterval ≤ 500 ∧ (posDiffX ≤ 5 ∧ -5 ≤ posDiffX) ∧ (posDiffY ≤ 5 ∧ -5 ≤ posDiffY) then
      (true, s1)
    else
      (false, { s1 with lastButtonClickPosition := localPos })
  else
    (false, s)

/-- `QAdwaitaDecorations::updateButtonHoverState`: sets the hover flags to
exactly the argument button and reports (with a repaint request) whether the
tri-state membership changed.  The returned `Bool` is both the return value
and the "repaint was requested" signal — they coincide in the source. -/
def updateButtonHoverState (s : DecorState) (hoveredButton : Button) : Bool × DecorState :=
  let s1 : DecorState :=
    { s with
      hoveredClose := hoveredButton = Button.Close,
      hoveredMaximize := hoveredButton = Button.Maximize,
      hoveredMinimize := hoveredButton = Button.Minimize }
  if s1.hoveredClose = s.hoveredClose ∧ s1.hoveredMaximize = s.hoveredMaximize
      ∧ s1.hoveredMinimize = s.hoveredMinimize then
    (false, s1)
  else
    (true, s1)

/-- `QAdwaitaDecorations::processMouseLeft`: always a left-edge resize
(plus a cursor hint, not modelled). -/
def processMouseLeft (s : DecorState) (b : MouseBtns) : DecorState × List Act :=
  (s, startResize s b Act.resizeLeft)

/-- `QAdwaitaDecorations::processMouseRight`: always a right-edge resize. -/
def processMouseRight (s : DecorState) (b : MouseBtns) : DecorState × List Act :=
  (s, startResize s b Act.resizeRight)

/-- `QAdwaitaDecorations::processMouseBottom`: corner vs edge resize by
x-position (the right-corner test reads `window()->width()`). -/
def processMouseBottom (env : HostEnv) (s : DecorState) (localPos : Point) (b : MouseBtns) :
    DecorState × List Act :=
  if localPos.x ≤ (marginsE env MarginsType.Full).left then
    (s, startResize s b Act.resizeBottomLeft)
  else if env.windowWidth + (marginsE env MarginsType.Full).right < localPos.x then
    (s, startResize s b Act.resizeBottomRight)
  else
    (s, startResize s b Act.resizeBottom)

/-- Lines 769–772 of `processMouseTop`: clear the hover state when the
pointer is over none of the three button rectangles. -/
def hoverClearOutsideButtons (env : HostEnv) (s : DecorState) (localPos : Point) : DecorState :=
  if ¬ (buttonRect env s Button.Close).containsPt localPos
      ∧ ¬ (buttonRect env s Button.Maximize).containsPt localPos
      ∧ ¬ (buttonRect env s Button.Minimize).containsPt localPos then
    (updateButtonHoverState s Button.None).2
  else s

/-- Lines 774–827 of `processMouseTop`: the top-band dispatch, mirroring
the source's branch order (resize sub-band first — note the top-right test
reuses `margins().left()` — then side bands, then Close/Maximize/Minimize
button rectangles, then double-click, then menu/move fallback). -/
def processMouseTopDispatch (env : HostEnv) (s0 : DecorState) (localPos : Point) (b : MouseBtns)
    (currentTime : Int) : DecorState × List Act :=
  let surfaceRect := windowContentGeometry env
  if localPos.y ≤ surfaceRect.top + (marginsE env MarginsType.Full).bottom then
    if localPos.x ≤ (marginsE env MarginsType.Full).left then
      (s0, startResize s0 b Act.resizeTopLeft)
    else if surfaceRect.right - (marginsE env MarginsType.Full).left < localPos.x then
      (s0, startResize s0 b Act.resizeTopRight)
    else
      (s0, startResize s0 b Act.resizeTop)
  else if localPos.x ≤ surfaceRect.left + (marginsE env MarginsType.Full).left then
    processMouseLeft s0 b
  else if surfaceRect.right - (marginsE env MarginsType.Full).right < localPos.x then
    processMouseRight s0 b
  else if (buttonRect env s0 Button.Close).containsPt localPos then
    let fired := clickButton s0 b Button.Close
    let s1 := if fired.1 then { fired.2 with hoveredClose := false } else fired.2
    let acts : List Act := if fired.1 then [Act.close] else []
    ((updateButtonHoverState s1 Button.Close).2, acts)
  else if s0.buttons.mem Button.Maximize
      ∧ (buttonRect env s0 Button.Maximize).containsPt localPos then
    let s1 := (updateButtonHoverState s0 Button.Maximize).2
    let fired := clickButton s1 b Button.Maximize
    if fired.1 then
      ({ fired.2 with hoveredMaximize := false }, [Act.toggleMaximize])
    else
      (fired.2, [])
  else if s0.buttons.mem Button.Minimize
      ∧ (buttonRect env s0 Button.Minimize).containsPt localPos then
    let s1 := (updateButtonHoverState s0 Button.Minimize).2
    let fired := clickButton s1 b Button.Minimize
    if fired.1 then
      ({ fired.2 with hoveredMinimize := false }, [Act.minimize])
    else
      (fired.2, [])
  else
    let dcb := doubleClickButton s0 b localPos currentTime
    if dcb.1 then
      (dcb.2, [Act.toggleMaximize])
    else
      let menuActs : List Act := if isRightOnly b then [Act.showMenu] else []
      (dcb.2, menuActs ++ startMove dcb.2 b)

/-- `QAdwaitaDecorations::processMouseTop`: hover precompute followed by
the top-band dispatch. -/
def processMouseTop (env : HostEnv) (s : DecorState) (localPos : Point) (b : MouseBtns)
    (currentTime : Int) : DecorState × List Act :=
  processMouseTopDispatch env (hoverClearOutsideButtons env s localPos) localPos b currentTime

/-- Lines 673–675 of `handleMouse`: clear the hover state when the pointer
is below the titlebar. -/
def handleMouseHover (env : HostEnv) (s : DecorState) (localPos : Point) : DecorState :=
  if (marginsE env MarginsType.Full).top < localPos.y then
    (updateButtonHoverState s Button.None).2
  else s

/-- Lines 678–691 of `handleMouse`: the four-band dispatch (else: restore
the cursor, no modelled effect). -/
def handleMouseDispatch (env : HostEnv) (s0 : DecorState) (localPos : Point) (b : MouseBtns)
    (currentTime : Int) : DecorState × List Act :=
  let surfaceRect := windowContentGeometry env
  if localPos.y ≤ surfaceRect.top + (marginsE env MarginsType.Full).top then
    processMouseTop env s0 localPos b currentTime
  else if surfaceRect.bottom - (marginsE env MarginsType.Full).bottom < localPos.y then
    processMouseBottom env s0 localPos b
  else if localPos.x ≤ surfaceRect.left + (marginsE env MarginsType.Full).left then
    processMouseLeft s0 b
  else if surfaceRect.right - (marginsE env MarginsType.Full).right < localPos.x then
    processMouseRight s0 b
  else
    (s0, ([] : List Act))

/-- `QAdwaitaDecorations::handleMouse`: hover reset below the titlebar,
band dispatch, clearing of the armed button on any left release, and the
`setMouseButtons(b)` bookkeeping.  The returned `Bool` is the function's
return value (the "handled" flag reported to the host). -/
def handleMouse (env : HostEnv) (s : DecorState) (localPos : Point) (b : MouseBtns)
    (currentTime : Int) : DecorState × List Act × Bool :=
  let s0 := handleMouseHover env s localPos
  let r := handleMouseDispatch env s0 localPos b currentTime
  let s1 :=
    if isLeftReleased s.mouseButtons b then { r.1 with clicking := Button.None } else r.1
  ({ s1 with mouseButtons := b }, r.2, false)

/-- A mouse event: position, new button state, timestamp. -/
structure MouseEvent where
  pos : Point
  btns : MouseBtns
  time : Int
  deriving DecidableEq, Repr

/-- Fold `handleMouse` over a list of events, concatenating the emitted
action requests. -/
def runEvents (env : HostEnv) (s : DecorState) : List MouseEvent → DecorState × List Act
  | [] => (s, [])
  | e :: rest =>
    let r := handleMouse env s e.pos e.btns e.time
    let r2 := runEvents env r.1 rest
    (r2.1, r.2.1 ++ r2.2)

-- Titlebar layout parsing (`updateTitlebarLayout`).  `QString`s are
-- modelled as `List Char`.

/-- `QString::split(sep)` with Qt's default `KeepEmptyParts` behaviour. -/
def splitChar (sep : Char) : List Char → List (List Char)
  | [] => [[]]
  | c :: rest =>
    if c = sep then [] :: splitChar sep rest
    else
      match splitChar sep rest with
      | [] => [[c]]
      | part :: parts => (c :: part) :: parts

/-- Whether `pat` occurs at the start of `s`. -/
def startsWithChars (s pat : List Char) : Prop :=
  match pat, s with
  | [], _ => True
  | _ :: _, [] => False
  | p :: ps, c :: rest => c = p ∧ startsWithChars rest ps

instance instDecStartsWithChars : ∀ (s pat : List Char), Decidable (startsWithChars s pat)
  | s, [] => isTrue (by cases s <;> trivial)
  | [], _ :: _ => isFalse id
  | c :: rest, p :: ps =>
    have : Decidable (startsWithChars rest ps) := instDecStartsWithChars rest ps
    inferInstanceAs (Decidable (_ ∧ _))

/-- `QString::contains(sub)`: `pat` occurs somewhere in `s`. -/
def hasSubstring (s pat : List Char) : Prop :=
  match s with
  | [] => pat = []
  | _ :: rest => startsWithChars s pat ∨ hasSubstring rest pat

instance instDecHasSubstring : ∀ (s pat : List Char), Decidable (hasSubstring s pat)
  | [], pat => inferInstanceAs (Decidable (pat = []))
  | _ :: rest, pat =>
    have : Decidable (hasSubstring rest pat) := instDecHasSubstring rest pat
    inferInstanceAs (Decidable (_ ∨ _))

/-- The loop body of `updateTitlebarLayout`: insert each parsed keyword at
the next position (`close`/`maximize` recognised, anything else stored as
`Minimize`). -/
def insertButtons : List (List Char) → Int → ButtonMap → ButtonMap
  | [], _, m => m
  | bstr :: rest, pos, m =>
    let m1 :=
      if bstr = "close".toList then { m with close := some pos }
      else if bstr = "maximize".toList then { m with maximize := some pos }
      else { m with minimize := some pos }
    insertButtons rest (pos + 1) m1

/-- `QAdwaitaDecorations::updateTitlebarLayout`: split on `:` (ignore the
update unless exactly two segments), clear the previous button map, choose
the side by where `close` appears, reverse the right-side list, and assign
dense 1-based positions. -/
def updateTitlebarLayout (s : DecorState) (layout : List Char) : DecorState :=
  let layouts := splitChar ':' layout
  if layouts.length ≠ 2 then s
  else
    let leftLayout := layouts.getD 0 []
    let rightLayout := layouts.getD 1 []
    let placement :=
      if hasSubstring leftLayout "close".toList then Placement.Left else Placement.Right
    let buttonLayout := if placement = Placement.Right then rightLayout else leftLayout
    let buttonList := splitChar ',' buttonLayout
    let buttonList1 := if placement = Placement.Right then buttonList.reverse else buttonList
    { s with placement := placement, buttons := insertButtons buttonList1 1 ⟨none, none, none⟩ }

/-- A concrete non-maximized, untiled environment: a 300×200 surface, host
content geometry `(10, 10, 280, 180)` (the xdg window geometry sits inside
the 10-pixel shadow ring), logical window width 278. -/
def env300 : HostEnv := ⟨false, noTiling, ⟨10, 10, 280, 180⟩, 278⟩

-- Helper lemmas.

/-- The state part of a hover update, spelled out. -/
theorem hover_snd (s : DecorState) (hb : Button) :
    (updateButtonHoverState s hb).2 =
      { s with hoveredClose := decide (hb = Button.Close),
               hoveredMaximize := decide (hb = Button.Maximize),
               hoveredMinimize := decide (hb = Button.Minimize) } := by
  simp only [updateButtonHoverState]
  split <;> rfl

/-- `buttonRect` only reads the placement and the button map. -/
theorem buttonRect_congr (env : HostEnv) (s s1 : DecorState) (btn : Button)
    (h1 : s.placement = s1.placement) (h2 : s.buttons = s1.buttons) :
    buttonRect env s btn = buttonRect env s1 btn := by
  unfold buttonRect
  rw [h1, h2]

/-- Concrete full margins for the untiled, non-maximized surface. -/
theorem marginsE_env300_full : marginsE env300 MarginsType.Full = ⟨11, 49, 11, 11⟩ := by
  decide

/-- The decorated surface rectangle of `env300`. -/
theorem wcg_env300 : windowContentGeometry env300 = ⟨0, 0, 300, 200⟩ := by
  decide

/-- The Close rectangle on `env300` under the default configuration. -/
theorem buttonRect_env300_close (s : DecorState) (hpl : s.placement = Placement.Right)
    (hbt : s.buttons = defaultButtons) :
    buttonRect env300 s Button.Close = ⟨254, 18, 24, 24⟩ := by
  unfold buttonRect
  rw [hpl, hbt]
  decide

/-- The Maximize rectangle on `env300` under the default configuration
(the button is absent from the map, so its position defaults to 0). -/
theorem buttonRect_env300_maximize (s : DecorState) (hpl : s.placement = Placement.Right)
    (hbt : s.buttons = defaultButtons) :
    buttonRect env300 s Button.Maximize = ⟨290, 18, 24, 24⟩ := by
  unfold buttonRect
  rw [hpl, hbt]
  decide

/-- The Minimize rectangle on `env300` under the default configuration. -/
theorem buttonRect_env300_minimize (s : DecorState) (hpl : s.placement = Placement.Right)
    (hbt : s.buttons = defaultButtons) :
    buttonRect env300 s Button.Minimize = ⟨290, 18, 24, 24⟩ := by
  unfold buttonRect
  rw [hpl, hbt]
  decide

-- Claim C3.

/-- C3: for every window state with `maximized = false` and no tiled edges,
`margins(Full)` has left = right = bottom = shadow + border = 11 and
top = titlebar + shadow + border = 49. -/
theorem C3_margins_untiled (maximized : Bool) (tiling : Tiling)
    (hm : maximized = false) (ht : tiling = noTiling) :
    margins maximized tiling MarginsType.Full = ⟨11, 49, 11, 11⟩
    ∧ (11 : Int) = ceShadowsWidth + ceWindowBorderWidth
    ∧ (49 : Int) = ceTitlebarHeight + ceShadowsWidth + ceWindowBorderWidth := by
  subst hm
  subst ht
  decide

/-- Witness for C3 at a concrete window state. -/
theorem C3_margins_untiled_witness :
    margins false noTiling MarginsType.Full = ⟨11, 49, 11, 11⟩ :=
  (C3_margins_untiled false noTiling rfl rfl).1

-- Claim C4 (corrected: a tiled top edge keeps the titlebar height in the
-- Full margins; it is not 0).

/-- C4 counterexample: with only the top edge tiled (not maximized), the
`Full` top margin is the titlebar height 38, not 0 as the claim states. -/
theorem C4_tiled_top_counterexample :
    (margins false ⟨false, true, false, false⟩ MarginsType.Full).top = 38
    ∧ ¬ (margins false ⟨false, true, false, false⟩ MarginsType.Full).top = 0 := by
  decide

/-- C4 amended: for a non-maximized state, every tiled edge other than Top
gets a `Full` margin of 0, while a tiled Top edge keeps the titlebar
height. -/
theorem C4_tiled_margins (maximized : Bool) (tiling : Tiling) (hm : maximized = false) :
    (tiling.left = true → (margins maximized tiling MarginsType.Full).left = 0)
    ∧ (tiling.right = true → (margins maximized tiling MarginsType.Full).right = 0)
    ∧ (tiling.bottom = true → (margins maximized tiling MarginsType.Full).bottom = 0)
    ∧ (tiling.top = true →
        (margins maximized tiling MarginsType.Full).top = ceTitlebarHeight) := by
  subst hm
  rcases tiling with ⟨el, et, er, eb⟩
  cases el <;> cases et <;> cases er <;> cases eb <;> decide

/-- Witness for C4 with all four edges tiled. -/
theorem C4_tiled_margins_witness :
    (margins false ⟨true, true, true, true⟩ MarginsType.Full).left = 0 :=
  (C4_tiled_margins false ⟨true, true, true, true⟩ rfl).1 rfl

-- Claim C8.

/-- C8: a layout string whose split on `:` does not give exactly two
segments leaves the whole state (in particular button order and placement)
unchanged, with no error. -/
theorem C8_malformed_layout_ignored (s : DecorState) (layout : List Char)
    (h : (splitChar ':' layout).length ≠ 2) :
    updateTitlebarLayout s layout = s := by
  unfold updateTitlebarLayout
  rw [if_pos h]

/-- Witness for C8 on a colon-free layout string. -/
theorem C8_malformed_layout_ignored_witness :
    updateTitlebarLayout (initState 0) "closeminimize".toList = initState 0 :=
  C8_malformed_layout_ignored (initState 0) "closeminimize".toList (by decide)

-- Claim C9.

/-- C9: after a hover update, exactly the argument button (or none) is
hovered — so at most one of Close/Maximize/Minimize — and the repaint
signal is raised exactly when the tri-state membership changed. -/
theorem C9_hover_single_selection (s : DecorState) (hb : Button) :
    ((updateButtonHoverState s hb).2.hoveredClose = true ↔ hb = Button.Close)
    ∧ ((updateButtonHoverState s hb).2.hoveredMaximize = true ↔ hb = Button.Maximize)
    ∧ ((updateButtonHoverState s hb).2.hoveredMinimize = true ↔ hb = Button.Minimize)
    ∧ ¬ ((updateButtonHoverState s hb).2.hoveredClose = true
          ∧ (updateButtonHoverState s hb).2.hoveredMaximize = true)
    ∧ ¬ ((updateButtonHoverState s hb).2.hoveredClose = true
          ∧ (updateButtonHoverState s hb).2.hoveredMinimize = true)
    ∧ ¬ ((updateButtonHoverState s hb).2.hoveredMaximize = true
          ∧ (updateButtonHoverState s hb).2.hoveredMinimize = true)
    ∧ ((updateButtonHoverState s hb).1 = true ↔
        ¬ ((updateButtonHoverState s hb).2.hoveredClose = s.hoveredClose
            ∧ (updateButtonHoverState s hb).2.hoveredMaximize = s.hoveredMaximize
            ∧ (updateButtonHoverState s hb).2.hoveredMinimize = s.hoveredMinimize)) := by
  rw [hover_snd]
  unfold updateButtonHoverState
  rcases s with ⟨pl, bt, ck, hc, hm, hmn, lc, lp, mb⟩
  cases hb <;> cases hc <;> cases hm <;> cases hmn <;> simp

-- Claim C10.

/-- C10: `handleMouse` reports every mouse event as unhandled (returns
`false`), whatever it dispatched. -/
theorem C10_handleMouse_returns_false (env : HostEnv) (s : DecorState) (p : Point)
    (b : MouseBtns) (t : Int) :
    (handleMouse env s p b t).2.2 = false :=
  rfl

-- Claim C2 (corrected: the parser uses the side that contains "close", not
-- the opposite side; for "close:minimize,maximize" the right-hand list is
-- discarded entirely).

/-- C2 counterexample: parsing `"close:minimize,maximize"` puts no
Maximize or Minimize button in the order at all (so Maximize is not at
position 1 nor Minimize at position 2). -/
theorem C2_layout_parse_counterexample :
    (updateTitlebarLayout (initState 0) "close:minimize,maximize".toList).placement
        = Placement.Left
    ∧ (updateTitlebarLayout (initState 0) "close:minimize,maximize".toList).buttons.maximize
        = none
    ∧ (updateTitlebarLayout (initState 0) "close:minimize,maximize".toList).buttons.minimize
        = none
    ∧ ¬ ((updateTitlebarLayout (initState 0)
            "close:minimize,maximize".toList).buttons.maximize = some 1) := by
  decide

/-- C2 amended: `"close:minimize,maximize"` yields placement Left and the
button order {Close@1}; the side opposite to close is ignored, because the
parser reads the very side that contains `close`. -/
theorem C2_layout_parse_close_left (s : DecorState) :
    updateTitlebarLayout s "close:minimize,maximize".toList =
      { s with placement := Placement.Left, buttons := ⟨some 1, none, none⟩ } :=
  rfl

-- Claim C5 (corrected: on a double-click press the position is kept, but
-- `m_lastButtonClick` is unconditionally overwritten with the press time).

/-- C5 counterexample: a press at the remembered position 300 ms after the
remembered click classifies as a double-click, yet updates
`lastButtonClick` from 0 to 300. -/
theorem C5_time_updated_counterexample :
    (doubleClickButton (initState 0) leftBtn ⟨0, 0⟩ 300).1 = true
    ∧ (doubleClickButton (initState 0) leftBtn ⟨0, 0⟩ 300).2.lastButtonClick = 300
    ∧ ¬ ((doubleClickButton (initState 0) leftBtn ⟨0, 0⟩ 300).2.lastButtonClick
          = (initState 0).lastButtonClick) := by
  decide

/-- C5 amended: a press classified as a double-click leaves
`lastButtonClickPosition` untouched but always sets `lastButtonClick` to
the press time; a third rapid press (within 500 ms of the second, within
5 units of the remembered position) still chains as a double-click. -/
theorem C5_doubleclick_chaining (s : DecorState) (b : MouseBtns) (p : Point) (t tNext : Int)
    (hprev : s.mouseButtons.left = false) (hb : b.left = true)
    (hdt : t - s.lastButtonClick ≤ 500)
    (hdx1 : s.lastButtonClickPosition.x - p.x ≤ 5)
    (hdx2 : -5 ≤ s.lastButtonClickPosition.x - p.x)
    (hdy1 : s.lastButtonClickPosition.y - p.y ≤ 5)
    (hdy2 : -5 ≤ s.lastButtonClickPosition.y - p.y)
    (hchain : tNext - t ≤ 500) :
    (doubleClickButton s b p t).1 = true
    ∧ (doubleClickButton s b p t).2.lastButtonClickPosition = s.lastButtonClickPosition
    ∧ (doubleClickButton s b p t).2.lastButtonClick = t
    ∧ (doubleClickButton (doubleClickButton s b p t).2 b p tNext).1 = true := by
  have hic : isLeftClicked s.mouseButtons b := ⟨hprev, hb⟩
  simp only [doubleClickButton]
  rw [if_pos hic]
  rw [if_pos ⟨hdt, ⟨hdx1, hdx2⟩, hdy1, hdy2⟩]
  refine ⟨rfl, rfl, rfl, ?_⟩
  rw [if_pos (show isLeftClicked ({ s with lastButtonClick := t } : DecorState).mouseButtons b
    from ⟨hprev, hb⟩)]
  rw [if_pos ⟨hchain, ⟨hdx1, hdx2⟩, hdy1, hdy2⟩]

/-- Witness for C5 chaining at concrete times 300 and 500. -/
theorem C5_doubleclick_chaining_witness :
    (doubleClickButton (initState 0) leftBtn ⟨0, 0⟩ 300).1 = true
    ∧ (doubleClickButton (initState 0) leftBtn ⟨0, 0⟩ 300).2.lastButtonClickPosition
        = (initState 0).lastButtonClickPosition
    ∧ (doubleClickButton (initState 0) leftBtn ⟨0, 0⟩ 300).2.lastButtonClick = 300
    ∧ (doubleClickButton (doubleClickButton (initState 0) leftBtn ⟨0, 0⟩ 300).2
        leftBtn ⟨0, 0⟩ 500).1 = true :=
  C5_doubleclick_chaining (initState 0) leftBtn ⟨0, 0⟩ 300 500 (by decide) (by decide)
    (by decide) (by decide) (by decide) (by decide) (by decide) (by decide)

-- Lemmas about events at (150, 20): a point of the draggable titlebar
-- strip of `env300` (below the top resize sub-band, over no button).

/-- A fresh left press in the drag strip starts a move and records the
click time and position for double-click detection. -/
theorem strip_press_fresh (s : DecorState) (t : Int)
    (hpl : s.placement = Placement.Right) (hbt : s.buttons = defaultButtons)
    (hmb : s.mouseButtons.left = false) (hfresh : ¬ (t - s.lastButtonClick ≤ 500)) :
    handleMouse env300 s ⟨150, 20⟩ leftBtn t =
      ({ s with hoveredClose := false, hoveredMaximize := false, hoveredMinimize := false,
                lastButtonClick := t, lastButtonClickPosition := ⟨150, 20⟩,
                mouseButtons := leftBtn }, [Act.move], false) := by
  have hc := buttonRect_env300_close s hpl hbt
  have hm2 := buttonRect_env300_maximize s hpl hbt
  have hmn := buttonRect_env300_minimize s hpl hbt
  have hcL := buttonRect_env300_close
    { s with hoveredClose := false, hoveredMaximize := false, hoveredMinimize := false } hpl hbt
  have hmL := buttonRect_env300_maximize
    { s with hoveredClose := false, hoveredMaximize := false, hoveredMinimize := false } hpl hbt
  have hnL := buttonRect_env300_minimize
    { s with hoveredClose := false, hoveredMaximize := false, hoveredMinimize := false } hpl hbt
  have hmaxmem : ¬ s.buttons.mem Button.Maximize := by rw [hbt]; decide
  have hminmem : ¬ s.buttons.mem Button.Minimize := by rw [hbt]; decide
  simp [handleMouse, handleMouseHover, handleMouseDispatch, processMouseTop,
    hoverClearOutsideButtons, processMouseTopDispatch, processMouseLeft, processMouseRight,
    processMouseBottom,
    clickButton, doubleClickButton, startMove, startResize, hover_snd, wcg_env300,
    marginsE_env300_full, hc, hm2, hmn, hcL, hmL, hnL, RectF.containsPt, Rect.top, Rect.left,
    Rect.right, Rect.bottom, hmaxmem, hminmem, isLeftClicked, isLeftReleased,
    isRightOnly, leftBtn, hmb, hfresh]

/-- A left press in the drag strip within the double-click window toggles
maximization; the position is kept, the time is overwritten. -/
theorem strip_press_dc (s : DecorState) (t : Int)
    (hpl : s.placement = Placement.Right) (hbt : s.buttons = defaultButtons)
    (hmb : s.mouseButtons.left = false) (hdt : t - s.lastButtonClick ≤ 500)
    (hdx1 : s.lastButtonClickPosition.x - 150 ≤ 5)
    (hdx2 : -5 ≤ s.lastButtonClickPosition.x - 150)
    (hdy1 : s.lastButtonClickPosition.y - 20 ≤ 5)
    (hdy2 : -5 ≤ s.lastButtonClickPosition.y - 20) :
    handleMouse env300 s ⟨150, 20⟩ leftBtn t =
      ({ s with hoveredClose := false, hoveredMaximize := false, hoveredMinimize := false,
                lastButtonClick := t, mouseButtons := leftBtn },
       [Act.toggleMaximize], false) := by
  have hc := buttonRect_env300_close s hpl hbt
  have hm2 := buttonRect_env300_maximize s hpl hbt
  have hmn := buttonRect_env300_minimize s hpl hbt
  have hcL := buttonRect_env300_close
    { s with hoveredClose := false, hoveredMaximize := false, hoveredMinimize := false } hpl hbt
  have hmL := buttonRect_env300_maximize
    { s with hoveredClose := false, hoveredMaximize := false, hoveredMinimize := false } hpl hbt
  have hnL := buttonRect_env300_minimize
    { s with hoveredClose := false, hoveredMaximize := false, hoveredMinimize := false } hpl hbt
  have hmaxmem : ¬ s.buttons.mem Button.Maximize := by rw [hbt]; decide
  have hminmem : ¬ s.buttons.mem Button.Minimize := by rw [hbt]; decide
  simp [handleMouse, handleMouseHover, handleMouseDispatch, processMouseTop,
    hoverClearOutsideButtons, processMouseTopDispatch, processMouseLeft, processMouseRight,
    processMouseBottom,
    clickButton, doubleClickButton, startMove, startResize, hover_snd, wcg_env300,
    marginsE_env300_full, hc, hm2, hmn, hcL, hmL, hnL, RectF.containsPt, Rect.top, Rect.left,
    Rect.right, Rect.bottom, hmaxmem, hminmem, isLeftClicked, isLeftReleased,
    isRightOnly, leftBtn, hmb, hdt, hdx1, hdx2, hdy1, hdy2]

/-- Releasing the left button in the drag strip performs no action and
clears the armed button. -/
theorem strip_release (s : DecorState) (t : Int)
    (hpl : s.placement = Placement.Right) (hbt : s.buttons = defaultButtons)
    (hmb : s.mouseButtons.left = true) :
    handleMouse env300 s ⟨150, 20⟩ noBtns t =
      ({ s with hoveredClose := false, hoveredMaximize := false, hoveredMinimize := false,
                clicking := Button.None, mouseButtons := noBtns }, [], false) := by
  have hc := buttonRect_env300_close s hpl hbt
  have hm2 := buttonRect_env300_maximize s hpl hbt
  have hmn := buttonRect_env300_minimize s hpl hbt
  have hcL := buttonRect_env300_close
    { s with hoveredClose := false, hoveredMaximize := false, hoveredMinimize := false } hpl hbt
  have hmL := buttonRect_env300_maximize
    { s with hoveredClose := false, hoveredMaximize := false, hoveredMinimize := false } hpl hbt
  have hnL := buttonRect_env300_minimize
    { s with hoveredClose := false, hoveredMaximize := false, hoveredMinimize := false } hpl hbt
  have hmaxmem : ¬ s.buttons.mem Button.Maximize := by rw [hbt]; decide
  have hminmem : ¬ s.buttons.mem Button.Minimize := by rw [hbt]; decide
  simp [handleMouse, handleMouseHover, handleMouseDispatch, processMouseTop,
    hoverClearOutsideButtons, processMouseTopDispatch, processMouseLeft, processMouseRight,
    processMouseBottom,
    clickButton, doubleClickButton, startMove, startResize, hover_snd, wcg_env300,
    marginsE_env300_full, hc, hm2, hmn, hcL, hmL, hnL, RectF.containsPt, Rect.top, Rect.left,
    Rect.right, Rect.bottom, hmaxmem, hminmem, isLeftClicked, isLeftReleased,
    isRightOnly, leftBtn, noBtns, hmb]

-- Claim C6.

/-- C6: two left presses at the same drag-strip coordinate: a second press
300 ms after the first classifies as a double-click (toggle maximize);
600 ms after the first it does not (it starts a move instead). -/
theorem C6_doubleclick_timing (last t0 tr : Int) (pos0 : Point) (hfresh : 500 < t0 - last) :
    (runEvents env300
        ⟨Placement.Right, defaultButtons, Button.None, false, false, false, last, pos0, noBtns⟩
        [⟨⟨150, 20⟩, leftBtn, t0⟩, ⟨⟨150, 20⟩, noBtns, tr⟩,
         ⟨⟨150, 20⟩, leftBtn, t0 + 300⟩]).2 = [Act.move, Act.toggleMaximize]
    ∧ (runEvents env300
        ⟨Placement.Right, defaultButtons, Button.None, false, false, false, last, pos0, noBtns⟩
        [⟨⟨150, 20⟩, leftBtn, t0⟩, ⟨⟨150, 20⟩, noBtns, tr⟩,
         ⟨⟨150, 20⟩, leftBtn, t0 + 600⟩]).2 = [Act.move, Act.move] := by
  have h1 := strip_press_fresh
    ⟨Placement.Right, defaultButtons, Button.None, false, false, false, last, pos0, noBtns⟩
    t0 rfl rfl rfl (by simpa using by omega)
  constructor
  · simp only [runEvents, h1]
    rw [strip_release _ tr rfl rfl rfl]
    simp only []
    rw [strip_press_dc _ (t0 + 300) rfl rfl rfl
      (by show t0 + 300 - t0 ≤ 500; omega)
      (by show (150 : Int) - 150 ≤ 5; decide) (by show (-5 : Int) ≤ 150 - 150; decide)
      (by show (20 : Int) - 20 ≤ 5; decide) (by show (-5 : Int) ≤ 20 - 20; decide)]
    simp
  · simp only [runEvents, h1]
    rw [strip_release _ tr rfl rfl rfl]
    simp only []
    rw [strip_press_fresh _ (t0 + 600) rfl rfl rfl (by show ¬ (t0 + 600 - t0 ≤ 500); omega)]
    simp

/-- Witness for C6 at concrete times 1000/1300/1600. -/
theorem C6_doubleclick_timing_witness :
    (runEvents env300
        ⟨Placement.Right, defaultButtons, Button.None, false, false, false, 0, ⟨0, 0⟩, noBtns⟩
        [⟨⟨150, 20⟩, leftBtn, 1000⟩, ⟨⟨150, 20⟩, noBtns, 1100⟩,
         ⟨⟨150, 20⟩, leftBtn, 1000 + 300⟩]).2 = [Act.move, Act.toggleMaximize]
    ∧ (runEvents env300
        ⟨Placement.Right, defaultButtons, Button.None, false, false, false, 0, ⟨0, 0⟩, noBtns⟩
        [⟨⟨150, 20⟩, leftBtn, 1000⟩, ⟨⟨150, 20⟩, noBtns, 1100⟩,
         ⟨⟨150, 20⟩, leftBtn, 1000 + 600⟩]).2 = [Act.move, Act.move] :=
  C6_doubleclick_timing 0 1000 1100 ⟨0, 0⟩ (by decide)

-- Claim C7 (corrected: y = 5 is inside the top resize sub-band, which is
-- 11 units deep, so the press starts a top-edge resize, not a move; a press
-- in the drag strip proper, e.g. at (150, 20), starts exactly one move).

/-- C7 counterexample: a press at (150, 5) followed by a release there
emits one top-edge resize request and no move request at all. -/
theorem C7_resize_strip_counterexample :
    (runEvents env300 (initState (-100000))
        [⟨⟨150, 5⟩, leftBtn, 0⟩, ⟨⟨150, 5⟩, noBtns, 10⟩]).2 = [Act.resizeTop]
    ∧ Act.move ∉ (runEvents env300 (initState (-100000))
        [⟨⟨150, 5⟩, leftBtn, 0⟩, ⟨⟨150, 5⟩, noBtns, 10⟩]).2 := by
  decide

/-- C7 amended: a fresh left press in the drag strip at (150, 20) followed
directly by a release at the same point, with no second click, emits
exactly one move request and no other host action request. -/
theorem C7_move_dispatch (last t0 t1 : Int) (pos0 : Point) (hfresh : 500 < t0 - last) :
    (runEvents env300
        ⟨Placement.Right, defaultButtons, Button.None, false, false, false, last, pos0, noBtns⟩
        [⟨⟨150, 20⟩, leftBtn, t0⟩, ⟨⟨150, 20⟩, noBtns, t1⟩]).2 = [Act.move] := by
  have h1 := strip_press_fresh
    ⟨Placement.Right, defaultButtons, Button.None, false, false, false, last, pos0, noBtns⟩
    t0 rfl rfl rfl (by simpa using by omega)
  simp only [runEvents, h1]
  rw [strip_release _ t1 rfl rfl rfl]
  simp

/-- Witness for C7 at concrete times. -/
theorem C7_move_dispatch_witness :
    (runEvents env300
        ⟨Placement.Right, defaultButtons, Button.None, false, false, false, 0, ⟨0, 0⟩, noBtns⟩
        [⟨⟨150, 20⟩, leftBtn, 1000⟩, ⟨⟨150, 20⟩, noBtns, 1001⟩]).2 = [Act.move] :=
  C7_move_dispatch 0 1000 1001 ⟨0, 0⟩ (by decide)

-- C1 machinery: invariants of mouse events while the left button stays
-- held, trace decomposition, and the press/release behaviour on the Close
-- rectangle.

/-- The hover precompute of `processMouseTop` only touches the hover
flags. -/
theorem hoverClear_fields (env : HostEnv) (s : DecorState) (p : Point) :
    (hoverClearOutsideButtons env s p).clicking = s.clicking
    ∧ (hoverClearOutsideButtons env s p).placement = s.placement
    ∧ (hoverClearOutsideButtons env s p).buttons = s.buttons
    ∧ (hoverClearOutsideButtons env s p).mouseButtons = s.mouseButtons
    ∧ (hoverClearOutsideButtons env s p).lastButtonClick = s.lastButtonClick
    ∧ (hoverClearOutsideButtons env s p).lastButtonClickPosition
        = s.lastButtonClickPosition := by
  unfold hoverClearOutsideButtons
  split <;> simp [hover_snd]

/-- The hover reset of `handleMouse` only touches the hover flags. -/
theorem hmHover_fields (env : HostEnv) (s : DecorState) (p : Point) :
    (handleMouseHover env s p).clicking = s.clicking
    ∧ (handleMouseHover env s p).placement = s.placement
    ∧ (handleMouseHover env s p).buttons = s.buttons
    ∧ (handleMouseHover env s p).mouseButtons = s.mouseButtons
    ∧ (handleMouseHover env s p).lastButtonClick = s.lastButtonClick
    ∧ (handleMouseHover env s p).lastButtonClickPosition = s.lastButtonClickPosition := by
  unfold handleMouseHover
  split <;> simp [hover_snd]

/-- While the left button stays held, the top-band dispatch performs no
action and preserves everything but the hover flags. -/
theorem processMouseTopDispatch_held (env : HostEnv) (s0 : DecorState) (p : Point)
    (b : MouseBtns) (t : Int) (hs : s0.mouseButtons.left = true) (hb : b.left = true) :
    (processMouseTopDispatch env s0 p b t).2 = []
    ∧ (processMouseTopDispatch env s0 p b t).1.clicking = s0.clicking
    ∧ (processMouseTopDispatch env s0 p b t).1.placement = s0.placement
    ∧ (processMouseTopDispatch env s0 p b t).1.buttons = s0.buttons
    ∧ (processMouseTopDispatch env s0 p b t).1.mouseButtons = s0.mouseButtons := by
  have h1 : ¬ isLeftClicked s0.mouseButtons b := by simp [isLeftClicked, hs]
  have h2 : ¬ isLeftReleased s0.mouseButtons b := by simp [isLeftReleased, hb]
  have h3 : ¬ isRightOnly b := by simp [isRightOnly, hb]
  simp only [processMouseTopDispatch, processMouseLeft, processMouseRight]
  split_ifs <;>
    simp_all [clickButton, doubleClickButton, startMove, startResize, hover_snd]

/-- While the left button stays held, `processMouseTop` performs no action
and preserves everything but the hover flags. -/
theorem processMouseTop_held (env : HostEnv) (s : DecorState) (p : Point)
    (b : MouseBtns) (t : Int) (hs : s.mouseButtons.left = true) (hb : b.left = true) :
    (processMouseTop env s p b t).2 = []
    ∧ (processMouseTop env s p b t).1.clicking = s.clicking
    ∧ (processMouseTop env s p b t).1.placement = s.placement
    ∧ (processMouseTop env s p b t).1.buttons = s.buttons
    ∧ (processMouseTop env s p b t).1.mouseButtons = s.mouseButtons := by
  obtain ⟨hck, hpl, hbt, hmb, -, -⟩ := hoverClear_fields env s p
  obtain ⟨d1, d2, d3, d4, d5⟩ := processMouseTopDispatch_held env
    (hoverClearOutsideButtons env s p) p b t (by rw [hmb]; exact hs) hb
  exact ⟨d1, d2.trans hck, d3.trans hpl, d4.trans hbt, d5.trans hmb⟩

/-- While the left button stays held, `processMouseBottom` performs no
action and leaves the state alone. -/
theorem processMouseBottom_held (env : HostEnv) (s0 : DecorState) (p : Point)
    (b : MouseBtns) (hs : s0.mouseButtons.left = true) :
    processMouseBottom env s0 p b = (s0, []) := by
  have h1 : ¬ isLeftClicked s0.mouseButtons b := by simp [isLeftClicked, hs]
  unfold processMouseBottom
  split_ifs <;> simp [startResize, h1]

/-- While the left button stays held, the whole band dispatch performs no
action and preserves everything but the hover flags. -/
theorem handleMouseDispatch_held (env : HostEnv) (s0 : DecorState) (p : Point)
    (b : MouseBtns) (t : Int) (hs : s0.mouseButtons.left = true) (hb : b.left = true) :
    (handleMouseDispatch env s0 p b t).2 = []
    ∧ (handleMouseDispatch env s0 p b t).1.clicking = s0.clicking
    ∧ (handleMouseDispatch env s0 p b t).1.placement = s0.placement
    ∧ (handleMouseDispatch env s0 p b t).1.buttons = s0.buttons
    ∧ (handleMouseDispatch env s0 p b t).1.mouseButtons = s0.mouseButtons := by
  have h1 : ¬ isLeftClicked s0.mouseButtons b := by simp [isLeftClicked, hs]
  have htop := processMouseTop_held env s0 p b t hs hb
  have hbot := processMouseBottom_held env s0 p b hs
  simp only [handleMouseDispatch]
  split_ifs <;>
    simp_all [processMouseLeft, processMouseRight, startResize]

/-- A mouse event that keeps the left button held performs no action and
preserves the armed button and the configuration. -/
theorem handleMouse_held (env : HostEnv) (s : DecorState) (p : Point) (b : MouseBtns) (t : Int)
    (hs : s.mouseButtons.left = true) (hb : b.left = true) :
    (handleMouse env s p b t).2.1 = []
    ∧ (handleMouse env s p b t).1.clicking = s.clicking
    ∧ (handleMouse env s p b t).1.placement = s.placement
    ∧ (handleMouse env s p b t).1.buttons = s.buttons
    ∧ (handleMouse env s p b t).1.mouseButtons = b := by
  obtain ⟨hck, hpl, hbt, hmb, -, -⟩ := hmHover_fields env s p
  obtain ⟨d1, d2, d3, d4, d5⟩ := handleMouseDispatch_held env
    (handleMouseHover env s p) p b t (by rw [hmb]; exact hs) hb
  have h2 : ¬ isLeftReleased s.mouseButtons b := by simp [isLeftReleased, hb]
  unfold handleMouse
  simp only [if_neg h2]
  exact ⟨d1, d2.trans hck, d3.trans hpl, d4.trans hbt, trivial⟩

/-- `runEvents` over a concatenation splits into two runs. -/
theorem runEvents_append (env : HostEnv) (xs ys : List MouseEvent) (s : DecorState) :
    runEvents env s (xs ++ ys)
      = ((runEvents env (runEvents env s xs).1 ys).1,
         (runEvents env s xs).2 ++ (runEvents env (runEvents env s xs).1 ys).2) := by
  induction xs generalizing s with
  | nil => simp [runEvents]
  | cons e rest ih => simp [runEvents, ih]

/-- A run of events that all keep the left button held performs no action
and preserves the armed button and the configuration. -/
theorem runEvents_held (env : HostEnv) (evs : List MouseEvent) :
    ∀ s : DecorState, s.mouseButtons.left = true → (∀ e ∈ evs, e.btns.left = true) →
    (runEvents env s evs).2 = []
    ∧ (runEvents env s evs).1.clicking = s.clicking
    ∧ (runEvents env s evs).1.placement = s.placement
    ∧ (runEvents env s evs).1.buttons = s.buttons
    ∧ (runEvents env s evs).1.mouseButtons.left = true := by
  induction evs with
  | nil =>
    intro s hs _
    exact ⟨rfl, rfl, rfl, rfl, hs⟩
  | cons e rest ih =>
    intro s hs hall
    have he : e.btns.left = true := hall e (List.mem_cons_self e rest)
    obtain ⟨htr, hck, hplp, hbtp, hmbp⟩ := handleMouse_held env s e.pos e.btns e.time hs he
    obtain ⟨htr2, hck2, hpl2, hbt2, hmb2⟩ :=
      ih (handleMouse env s e.pos e.btns e.time).1 (by rw [hmbp]; exact he)
        (fun e2 h2 => hall e2 (List.mem_cons_of_mem _ h2))
    refine ⟨?_, ?_, ?_, ?_, ?_⟩ <;>
      simp only [runEvents, htr, htr2, List.nil_append]
    · exact hck2.trans hck
    · exact hpl2.trans hplp
    · exact hbt2.trans hbtp
    · exact hmb2

/-- The top-band dispatch emits a close request only when the position is
inside the Close rectangle of its input state. -/
theorem pMTDispatch_close_requires (env : HostEnv) (s0 : DecorState) (q : Point)
    (b : MouseBtns) (t : Int)
    (hmem : Act.close ∈ (processMouseTopDispatch env s0 q b t).2) :
    (buttonRect env s0 Button.Close).containsPt q := by
  simp only [processMouseTopDispatch, processMouseLeft, processMouseRight, startMove,
    startResize] at hmem
  split_ifs at hmem <;> first | assumption | simp_all

/-- A close request is only emitted by a mouse event whose position is in
the Close rectangle (of the state as configured, the hover steps being
irrelevant to the rectangle). -/
theorem close_requires_rect (env : HostEnv) (s : DecorState) (q : Point) (b : MouseBtns)
    (t : Int) (hmem : Act.close ∈ (handleMouse env s q b t).2.1) :
    (buttonRect env s Button.Close).containsPt q := by
  replace hmem : Act.close ∈ (handleMouseDispatch env (handleMouseHover env s q) q b t).2 :=
    hmem
  simp only [handleMouseDispatch] at hmem
  split_ifs at hmem
  · -- top band: reduce to the dispatch lemma
    replace hmem : Act.close ∈ (processMouseTopDispatch env
        (hoverClearOutsideButtons env (handleMouseHover env s q) q) q b t).2 := hmem
    have hr := pMTDispatch_close_requires env _ q b t hmem
    have e1 : buttonRect env
        (hoverClearOutsideButtons env (handleMouseHover env s q) q) Button.Close
        = buttonRect env s Button.Close := by
      apply buttonRect_congr
      · exact ((hoverClear_fields env (handleMouseHover env s q) q).2.1).trans
          (hmHover_fields env s q).2.1
      · exact ((hoverClear_fields env (handleMouseHover env s q) q).2.2.1).trans
          (hmHover_fields env s q).2.2.1
    rwa [e1] at hr
  · unfold processMouseBottom startResize at hmem
    split_ifs at hmem <;> simp_all
  · unfold processMouseLeft startResize at hmem
    split_ifs at hmem <;> simp_all
  · unfold processMouseRight startResize at hmem
    split_ifs at hmem <;> simp_all
  · simp_all

/-- A fresh left press inside the Close rectangle arms the Close button and
emits nothing. -/
theorem press_on_close (s : DecorState) (p : Point) (t : Int)
    (hpl : s.placement = Placement.Right) (hbt : s.buttons = defaultButtons)
    (hmb : s.mouseButtons.left = false)
    (hp : (buttonRect env300 s Button.Close).containsPt p) :
    handleMouse env300 s p leftBtn t =
      ({ s with clicking := Button.Close, hoveredClose := true, hoveredMaximize := false,
                hoveredMinimize := false, mouseButtons := leftBtn }, [], false) := by
  have hc := buttonRect_env300_close s hpl hbt
  rw [hc] at hp
  simp only [RectF.containsPt] at hp
  obtain ⟨-, -, hx1, hx2, hy1, hy2⟩ := hp
  have hmaxmem : ¬ s.buttons.mem Button.Maximize := by rw [hbt]; decide
  have hminmem : ¬ s.buttons.mem Button.Minimize := by rw [hbt]; decide
  have hx2b : p.x ≤ (278 : Int) := by omega
  have hy2b : p.y ≤ (42 : Int) := by omega
  have d1 : ¬ ((49 : Int) < p.y) := by omega
  have d2 : p.y ≤ (49 : Int) := by omega
  have d3 : ¬ (p.y ≤ (11 : Int)) := by omega
  have d4 : ¬ (p.x ≤ (11 : Int)) := by omega
  have d5 : ¬ ((288 : Int) < p.x) := by omega
  simp [handleMouse, handleMouseHover, handleMouseDispatch, processMouseTop,
    hoverClearOutsideButtons, processMouseTopDispatch, processMouseLeft, processMouseRight,
    processMouseBottom,
    clickButton, doubleClickButton, startMove, startResize, hover_snd, wcg_env300,
    marginsE_env300_full, hc, RectF.containsPt, Rect.top, Rect.left, Rect.right, Rect.bottom,
    hmaxmem, hminmem, isLeftClicked, isLeftReleased, isRightOnly, leftBtn, hmb,
    hx1, hx2b, hy1, hy2b, d1, d2, d3, d4, d5]

/-- A left release inside the Close rectangle while Close is armed emits
exactly one close request. -/
theorem release_on_close (s : DecorState) (q : Point) (t : Int)
    (hpl : s.placement = Placement.Right) (hbt : s.buttons = defaultButtons)
    (hmb : s.mouseButtons.left = true) (hck : s.clicking = Button.Close)
    (hq : (buttonRect env300 s Button.Close).containsPt q) :
    (handleMouse env300 s q noBtns t).2.1 = [Act.close] := by
  have hc := buttonRect_env300_close s hpl hbt
  rw [hc] at hq
  simp only [RectF.containsPt] at hq
  obtain ⟨-, -, hx1, hx2, hy1, hy2⟩ := hq
  have hmaxmem : ¬ s.buttons.mem Button.Maximize := by rw [hbt]; decide
  have hminmem : ¬ s.buttons.mem Button.Minimize := by rw [hbt]; decide
  have hx2b : q.x ≤ (278 : Int) := by omega
  have hy2b : q.y ≤ (42 : Int) := by omega
  have d1 : ¬ ((49 : Int) < q.y) := by omega
  have d2 : q.y ≤ (49 : Int) := by omega
  have d3 : ¬ (q.y ≤ (11 : Int)) := by omega
  have d4 : ¬ (q.x ≤ (11 : Int)) := by omega
  have d5 : ¬ ((288 : Int) < q.x) := by omega
  simp [handleMouse, handleMouseHover, handleMouseDispatch, processMouseTop,
    hoverClearOutsideButtons, processMouseTopDispatch, processMouseLeft, processMouseRight,
    processMouseBottom,
    clickButton, doubleClickButton, startMove, startResize, hover_snd, wcg_env300,
    marginsE_env300_full, hc, RectF.containsPt, Rect.top, Rect.left, Rect.right, Rect.bottom,
    hmaxmem, hminmem, isLeftClicked, isLeftReleased, isRightOnly, noBtns, hmb, hck,
    hx1, hx2b, hy1, hy2b, d1, d2, d3, d4, d5]

-- Claim C1.

/-- C1: pressing the left button inside the Close rectangle and releasing
it outside (after any number of intervening events with the button held)
never emits a close request; releasing it inside the rectangle emits
exactly one close request (and nothing else). -/
theorem C1_close_two_phase (s : DecorState) (p q : Point) (moves : List MouseEvent)
    (tp tq : Int)
    (hpl : s.placement = Placement.Right) (hbt : s.buttons = defaultButtons)
    (hmb : s.mouseButtons.left = false)
    (hp : (buttonRect env300 s Button.Close).containsPt p)
    (hmoves : ∀ e ∈ moves, e.btns.left = true) :
    (¬ (buttonRect env300 s Button.Close).containsPt q →
      Act.close ∉ (runEvents env300 s
        (⟨p, leftBtn, tp⟩ :: (moves ++ [⟨q, noBtns, tq⟩]))).2)
    ∧ ((buttonRect env300 s Button.Close).containsPt q →
      (runEvents env300 s (⟨p, leftBtn, tp⟩ :: (moves ++ [⟨q, noBtns, tq⟩]))).2
        = [Act.close]) := by
  have hpress := press_on_close s p tp hpl hbt hmb hp
  obtain ⟨hmtr, hmck, hmpl, hmbt, hmmb⟩ := runEvents_held env300 moves
    ({ s with
        clicking := Button.Close, hoveredClose := true, hoveredMaximize := false,
        hoveredMinimize := false, mouseButtons := leftBtn }) rfl hmoves
  have htrace : (runEvents env300 s (⟨p, leftBtn, tp⟩ :: (moves ++ [⟨q, noBtns, tq⟩]))).2
      = (handleMouse env300
          (runEvents env300
            ({ s with
                clicking := Button.Close, hoveredClose := true, hoveredMaximize := false,
                hoveredMinimize := false, mouseButtons := leftBtn }) moves).1
          q noBtns tq).2.1 := by
    simp only [runEvents]
    rw [hpress]
    simp only []
    rw [runEvents_append]
    rw [hmtr]
    simp only [runEvents]
    simp
  have hbr : buttonRect env300
      (runEvents env300
        ({ s with
            clicking := Button.Close, hoveredClose := true, hoveredMaximize := false,
            hoveredMinimize := false, mouseButtons := leftBtn }) moves).1 Button.Close
      = buttonRect env300 s Button.Close :=
    buttonRect_congr env300 _ s Button.Close hmpl hmbt
  constructor
  · intro hqn hmem
    rw [htrace] at hmem
    exact hqn (hbr ▸ close_requires_rect env300 _ q noBtns tq hmem)
  · intro hqy
    rw [htrace]
    exact release_on_close _ q tq (hmpl.trans hpl) (hmbt.trans hbt) hmmb hmck
      (by rw [hbr]; exact hqy)

/-- Witness for C1: a press on Close, a held move, then a release outside
the Close rectangle emits no close request. -/
theorem C1_close_two_phase_witness :
    Act.close ∉ (runEvents env300 (initState 0)
      (⟨⟨260, 30⟩, leftBtn, 0⟩ ::
        ([⟨⟨200, 100⟩, leftBtn, 5⟩] ++ [⟨⟨100, 100⟩, noBtns, 10⟩]))).2 :=
  (C1_close_two_phase (initState 0) ⟨260, 30⟩ ⟨100, 100⟩ [⟨⟨200, 100⟩, leftBtn, 5⟩] 0 10
    rfl rfl rfl (by decide) (by decide)).1 (by decide)

end QAdwaita
